import Mathlib

/-!
Shallow embedding of the login-service backend (alillje/login-service-backend).

The embedding follows the JavaScript sources:
  * `src/models/user.js` (bcrypt hashing, `User.authenticate`);
  * `jsonwebtoken` 8.5.1 semantics for `jwt.sign` / `jwt.verify` as the
    controllers and routers call them;
  * the route middlewares of `account-router.js`, `users-router.js` and the
    two unnamed users-router variants;
  * the `AccountController` and `UsersController` operations the claims cite.

Machine behaviour that the JavaScript runtime supplies (undefined-property
TypeErrors, string falsiness, `Array.prototype` destructuring) is modelled
explicitly where a claim depends on it.
-/

namespace LoginService

/-- Equality on `Except` results is decidable; used to evaluate the model on
concrete inputs. -/
instance {ε α : Type} [DecidableEq ε] [DecidableEq α] :
    DecidableEq (Except ε α) := fun x y =>
  match x, y with
  | Except.error e, Except.error f =>
    if h : e = f then isTrue (by rw [h])
    else isFalse (by intro hc; injection hc; contradiction)
  | Except.error _, Except.ok _ => isFalse (by intro hc; exact Except.noConfusion hc)
  | Except.ok _, Except.error _ => isFalse (by intro hc; exact Except.noConfusion hc)
  | Except.ok a, Except.ok b =>
    if h : a = b then isTrue (by rw [h])
    else isFalse (by intro hc; injection hc; contradiction)

/-- JavaScript `String.prototype.toLowerCase`, written structurally over the
character list so that concrete instances evaluate. -/
def toLowerCase (s : String) : String := String.mk (s.data.map Char.toLower)

/-! ### bcrypt (node bcrypt 5.x) -/

/-- A bcrypt digest. `bcrypt.hash(plaintext, cost)` draws a random salt and
produces a digest that is compared by re-hashing; the model records cost, salt
and the hashed plaintext, with record formation playing the role of the
one-way function. -/
inductive Digest where
  | bc (cost : Nat) (salt : Nat) (plaintext : String)
deriving DecidableEq

/-- The rejection `bcrypt.compare` raises from its argument validation
(`data and hash arguments required`) before any hashing work is performed. -/
inductive BcryptError where
  | argsRequired
deriving DecidableEq

/-- Model of `bcrypt.hash` with an explicit salt argument in place of the
internal randomness of the library. -/
def bcryptHash (cost salt : Nat) (plaintext : String) : Digest :=
  Digest.bc cost salt plaintext

/-- Model of `bcrypt.compare(data, hash)` from node bcrypt 5.x: when either
argument is `null`/`undefined` the promise rejects with
`data and hash arguments required` without running the bcrypt kernel;
otherwise the comparison re-hashes `data` under the parameters of the digest and
compares. -/
def bcryptCompare (data : Option String) (digest : Option Digest) :
    Except BcryptError Bool :=
  match data, digest with
  | none, _ => Except.error BcryptError.argsRequired
  | _, none => Except.error BcryptError.argsRequired
  | some d, some (Digest.bc _ _ p) => Except.ok (d == p)

/-! ### The User model (`src/models/user.js`) -/

/-- A stored account document: `_id` (exposed as the virtual `id`), the
unique `username`, and the bcrypt `password` digest written by the
pre-save hook. -/
structure StoredUser where
  id : String
  username : String
  password : Digest
deriving DecidableEq

/-- `this.findOne (with username)` — the account-directory lookup used by
`User.authenticate`. -/
def findOne (db : List StoredUser) (username : String) : Option StoredUser :=
  db.find? (fun u => u.username == username)

/-- `User.findById(id)`. -/
def findById (db : List StoredUser) (id : String) : Option StoredUser :=
  db.find? (fun u => u.id == id)

/-- The two distinct errors `User.authenticate` can raise: the bcrypt
argument rejection (absent account, so `user?.password` is `undefined`), and
the explicit `Error with message Invalid credentials.` thrown on a mismatch. -/
inductive AuthError where
  | bcryptArgs
  | invalidCredentials
deriving DecidableEq

/-- `schema.statics.authenticate(username, password)`:

    const user = await this.findOne(.. username ..)
    if (!(await bcrypt.compare(password, user?.password))) throw ...
    return user

When no user is found, `user?.password` is `undefined` and `bcrypt.compare`
rejects with its argument error, which propagates out of `authenticate`.
The `none` branch under a successful comparison is unreachable, because a
comparison against a missing digest always rejects. -/
def userAuthenticate (db : List StoredUser) (username : String)
    (password : Option String) : Except AuthError StoredUser :=
  let user := findOne db username
  match bcryptCompare password (user.map (fun u => u.password)) with
  | Except.error _ => Except.error AuthError.bcryptArgs
  | Except.ok b =>
    if !b then Except.error AuthError.invalidCredentials
    else
      match user with
      | some u => Except.ok u
      | none => Except.error AuthError.invalidCredentials

/-! ### jsonwebtoken 8.5.1 -/

/-- The JWS algorithms exercised by the repository and its verification
defaults. The library also knows RS512/ES*/PS*/HS384/HS512; they behave like
the listed member of their family and are omitted. -/
inductive Alg where
  | RS256
  | RS384
  | HS256
deriving DecidableEq

/-- The signed claim set the controllers put in a token: `sub` plus the
`iat`/`exp` pair `jwt.sign` adds from its clock and `expiresIn`. -/
structure Claims where
  sub : String
  iat : Nat
  exp : Nat
deriving DecidableEq

/-- The string passed to `jwt.sign`/`jwt.verify` as key material.
`pemPriv`/`pemPub` are the PEM texts of key pair `kid` obtained by
base64-decoding the environment variables; `b64` is the raw, still
base64-encoded environment value (it contains no `BEGIN ... KEY` marker). -/
inductive KeyStr where
  | pemPriv (kid : Nat)
  | pemPub (kid : Nat)
  | b64 (kid : Nat)
deriving DecidableEq

/-- A signature value: an RSASSA signature made with the private key of pair
`kid` over `content` (hash chosen by `alg`), or an HMAC over `content` keyed
with the byte string `secret`. -/
inductive Sig where
  | rsa (kid : Nat) (alg : Alg) (content : Claims)
  | hmac (secret : KeyStr) (alg : Alg) (content : Claims)
deriving DecidableEq

/-- A decoded compact JWS: header algorithm, payload claims, signature. -/
structure Token where
  alg : Alg
  claims : Claims
  sig : Sig
deriving DecidableEq

/-- The `JsonWebTokenError`/`TokenExpiredError` outcomes of `jwt.verify`. -/
inductive JwtError where
  | invalidAlgorithm
  | invalidSignature
  | tokenExpired
  | mustBeProvided
  | malformed
deriving DecidableEq

/-- jsonwebtoken 8.5.1 defaulting of `options.algorithms` when the caller
passes none: a key string containing `BEGIN PUBLIC KEY` or
`BEGIN CERTIFICATE` allows the asymmetric family; any other string — such as
the raw base64 environment value, and also a private-key PEM — allows the
HMAC family. -/
def allowedAlgs : KeyStr → List Alg
  | KeyStr.pemPub _ => [Alg.RS256, Alg.RS384]
  | KeyStr.pemPriv _ => [Alg.HS256]
  | KeyStr.b64 _ => [Alg.HS256]

/-- Signature verification for one token under the given key string: RSA
algorithms check the RSASSA signature against the public key of the pair,
HMAC algorithms recompute the MAC with the key string itself as secret. -/
def sigOk (t : Token) (key : KeyStr) : Bool :=
  match t.alg with
  | Alg.RS256 =>
    match key with
    | KeyStr.pemPub kid => t.sig == Sig.rsa kid Alg.RS256 t.claims
    | _ => false
  | Alg.RS384 =>
    match key with
    | KeyStr.pemPub kid => t.sig == Sig.rsa kid Alg.RS384 t.claims
    | _ => false
  | Alg.HS256 => t.sig == Sig.hmac key Alg.HS256 t.claims

/-- `jwt.verify(token, key)` as the routers call it — with no `algorithms`
option, so 8.5.1 defaults the allow-list from the key string; then the
signature is checked, then `exp` against the clock (`TokenExpiredError` as
soon as `exp <= now`). No `nbf`/`iat` check applies to these tokens. -/
def jwtVerify8 (t : Token) (key : KeyStr) (now : Nat) : Except JwtError Claims :=
  if !((allowedAlgs key).contains t.alg) then Except.error JwtError.invalidAlgorithm
  else if !(sigOk t key) then Except.error JwtError.invalidSignature
  else if t.claims.exp ≤ now then Except.error JwtError.tokenExpired
  else Except.ok t.claims

/-- `jwt.sign(payload, privateKeyPem, (RS256, expiresIn))` as the
controllers call it: claims get `iat = now` and `exp = now + lifetime`, and
the RSASSA-SHA256 signature is made with the private key of pair `kid`. -/
def jwtSignRS256 (payloadSub : String) (kid : Nat) (lifetime now : Nat) : Token :=
  let c : Claims := { sub := payloadSub, iat := now, exp := now + lifetime }
  { alg := Alg.RS256, claims := c, sig := Sig.rsa kid Alg.RS256 c }

/-- The token part of an authorization header as a string: either a
syntactically well-formed compact JWS or any other text (for which
`jwt.verify` raises `jwt malformed`). -/
inductive TokenStr where
  | tok (t : Token)
  | malformed
deriving DecidableEq

/-- `jwt.verify` on the raw string taken from the header: `undefined` gives
`jwt must be provided`, non-JWS text gives `jwt malformed`, and a decoded
token is checked by `jwtVerify8`. -/
def jwtVerifyStr (s : Option TokenStr) (key : KeyStr) (now : Nat) :
    Except JwtError Claims :=
  match s with
  | none => Except.error JwtError.mustBeProvided
  | some TokenStr.malformed => Except.error JwtError.malformed
  | some (TokenStr.tok t) => jwtVerify8 t key now

/-! ### Middleware plumbing

An Express middleware either calls `next()` with an enriched request
(`MwStep.next`) or hands `next` an `http-errors` error whose status the final
error handler sends (`MwStep.fail`). The authorization header is modelled
after the space-split of `req.headers.authorization` (optional chaining): `none` when the header is
absent (array-destructuring `undefined` then throws a TypeError), otherwise
the scheme word paired with the optional token word. -/

/-- The request identity a JWT middleware attaches (`req.user` or
`req.admin`): the claims fields beyond `sub` that the middlewares copy
(`user`, `username`, `admin`) are `undefined` in every token the controllers
issue and are read by no downstream handler, so only `sub` is kept. -/
structure Identity where
  sub : String
deriving DecidableEq

/-- Outcome of one middleware run. -/
inductive MwStep (α : Type) where
  | next (a : α)
  | fail (status : Nat)
deriving DecidableEq

/-- Outcome of a whole route: a JSON body, a bare `204`, or an error status
sent by the application-level error handler. -/
inductive RouteRes where
  | json (u : StoredUser)
  | noContent
  | err (status : Nat)
deriving DecidableEq

namespace AccountRouter

/-- `authenticateJWT` of `src/routes/api/v1/account-router.js`: split the
authorization header, require the `Bearer` scheme, verify the token against
the base64-decoded `ACCESS_TOKEN_PUBLIC_KEY` PEM (key pair `kid`); any throw
in the try block is caught and turned into a 401. -/
def authenticateJWT (kid : Nat) (hdr : Option (String × Option TokenStr))
    (now : Nat) : MwStep Identity :=
  match hdr with
  | none => MwStep.fail 401
  | some (scheme, t) =>
    if scheme ≠ "Bearer" then MwStep.fail 401
    else
      match jwtVerifyStr t (KeyStr.pemPub kid) now with
      | Except.error _ => MwStep.fail 401
      | Except.ok c => MwStep.next { sub := c.sub }

/-- `authorizeUser` of `account-router.js`: throw (caught as 403) unless
`req.user.sub` equals the `:id` path parameter. When no identity was
attached, reading `.sub` of `undefined` throws, which the same catch turns
into 403. -/
def authorizeUser (reqUser : Option Identity) (paramsId : String) :
    MwStep Identity :=
  match reqUser with
  | none => MwStep.fail 403
  | some u => if u.sub ≠ paramsId then MwStep.fail 403 else MwStep.next u

end AccountRouter

namespace UsersRouter

/-- `authenticateJWT` of `src/routes/api/v1/users-router.js`: same shape as
in the account router, verifying against the base64-decoded
`ACCESS_TOKEN_PUB` PEM and attaching the payload to `req.admin`; every
failure becomes a 401. -/
def authenticateJWT (kid : Nat) (hdr : Option (String × Option TokenStr))
    (now : Nat) : MwStep Identity :=
  match hdr with
  | none => MwStep.fail 401
  | some (scheme, t) =>
    if scheme ≠ "Bearer" then MwStep.fail 401
    else
      match jwtVerifyStr t (KeyStr.pemPub kid) now with
      | Except.error _ => MwStep.fail 401
      | Except.ok c => MwStep.next { sub := c.sub }

end UsersRouter

namespace Part000

/-- `authorizeJWT` of the first unnamed users-router variant: identical try
block to the other bearer middlewares, but the catch builds
`createError(403)` — every authentication failure surfaces as 403. -/
def authorizeJWT (kid : Nat) (hdr : Option (String × Option TokenStr))
    (now : Nat) : MwStep Identity :=
  match hdr with
  | none => MwStep.fail 403
  | some (scheme, t) =>
    if scheme ≠ "Bearer" then MwStep.fail 403
    else
      match jwtVerifyStr t (KeyStr.pemPub kid) now with
      | Except.error _ => MwStep.fail 403
      | Except.ok c => MwStep.next { sub := c.sub }

end Part000

namespace Part001

/-- `authenticateJWT` of the second unnamed users-router variant: it passes
`process.env.ACCESS_TOKEN_PUBLIC_KEY` to `jwt.verify` RAW — the base64 text,
not the decoded PEM — so jsonwebtoken 8.5.1 defaults the algorithm
allow-list to the HMAC family for this key string. Failures become 401. -/
def authenticateJWT (kid : Nat) (hdr : Option (String × Option TokenStr))
    (now : Nat) : MwStep Identity :=
  match hdr with
  | none => MwStep.fail 401
  | some (scheme, t) =>
    if scheme ≠ "Bearer" then MwStep.fail 401
    else
      match jwtVerifyStr t (KeyStr.b64 kid) now with
      | Except.error _ => MwStep.fail 401
      | Except.ok c => MwStep.next { sub := c.sub }

end Part001

/-! ### The reset-token middleware and its key expression -/

/-- A JavaScript runtime TypeError (property access on `undefined`). -/
inductive JsErr where
  | typeError
deriving DecidableEq

/-- The JavaScript values the reset-key expression can produce: `undefined`
or a string (every `process.env` entry is a string). -/
inductive JsVal where
  | undef
  | str (s : String)
deriving DecidableEq

/-- Reading a property of `process.env`: a set variable yields its string,
an unset one yields `undefined`. -/
def envGet (env : List (String × String)) (k : String) : JsVal :=
  match env.lookup k with
  | some s => JsVal.str s
  | none => JsVal.undef

/-- JavaScript property access on such a value: on `undefined` it throws a
TypeError; on a string it yields `undefined` (neither `env` nor
`PASSWORD_RESET_PUBLIC` is a `String.prototype` member). -/
def getProp : JsVal → String → Except JsErr JsVal
  | JsVal.undef, _ => Except.error JsErr.typeError
  | JsVal.str _, _ => Except.ok JsVal.undef

/-- The key expression of `authenticatePasswordResetJWT`, read off the
source: `process.env.process.env.PASSWORD_RESET_PUBLIC`, i.e. the `process`
entry of the environment, then its `env` property, then
`PASSWORD_RESET_PUBLIC` of that. -/
def passwordResetKeyExpr (env : List (String × String)) : Except JsErr JsVal := do
  let a := envGet env "process"
  let b ← getProp a "env"
  getProp b "PASSWORD_RESET_PUBLIC"

/-- `Buffer.from(v, base64)`: throws a TypeError unless `v` is a string
(or buffer-like). -/
def bufferFromBase64 : JsVal → Except JsErr String
  | JsVal.undef => Except.error JsErr.typeError
  | JsVal.str s => Except.ok s

namespace AccountRouter

/-- `authenticatePasswordResetJWT` of `account-router.js`: header split and
scheme check as in the other middlewares, then `jwt.verify` with the key
expression `process.env.process.env.PASSWORD_RESET_PUBLIC`. The key
expression is evaluated before `jwt.verify` can run, and any throw lands in
the catch, which answers 401. The verification continuation is kept as a
visibly wrong sentinel so that the always-401 theorem genuinely depends on
the key expression throwing on every environment. -/
def authenticatePasswordResetJWT (env : List (String × String))
    (hdr : Option (String × Option TokenStr)) : MwStep Identity :=
  match hdr with
  | none => MwStep.fail 401
  | some (scheme, _t) =>
    if scheme ≠ "Bearer" then MwStep.fail 401
    else
      match (passwordResetKeyExpr env).bind bufferFromBase64 with
      | Except.error _ => MwStep.fail 401
      | Except.ok _pem => MwStep.next { sub := "unreachable" }

end AccountRouter

/-! ### AccountController (first variant of `account-controller.js`) -/

/-- Result of the `login` endpoint: a 200 with the signed access token, or
an error status handed to `next`. -/
inductive LoginResult where
  | ok (accessToken : Token)
  | err (status : Nat)
deriving DecidableEq

namespace AccountController

/-- `issueAccessToken` — the minting step of `login`: `jwt.sign` of
`(sub = account.id)` with the decoded `ACCESS_TOKEN_SECRET` private key,
RS256, `expiresIn = ACCESS_TOKEN_LIFE`. -/
def issueAccessToken (a : StoredUser) (kid life now : Nat) : Token :=
  jwtSignRS256 a.id kid life now

/-- `verifyAccessToken` — the check `authenticateJWT` performs:
`jwt.verify` against the decoded `ACCESS_TOKEN_PUBLIC_KEY` of pair `kid`. -/
def verifyAccessToken (t : Token) (kid : Nat) (now : Nat) :
    Except JwtError Claims :=
  jwtVerify8 t (KeyStr.pemPub kid) now

/-- `AccountController.login`: lowercase the posted username (a missing
username makes `toLowerCase` throw), run `User.authenticate`, sign the
access token; any throw in the try block is answered with 401. -/
def login (db : List StoredUser) (kid life now : Nat)
    (username password : Option String) : LoginResult :=
  match username with
  | none => LoginResult.err 401
  | some u =>
    match userAuthenticate db (toLowerCase u) password with
    | Except.error _ => LoginResult.err 401
    | Except.ok user => LoginResult.ok (issueAccessToken user kid life now)

/-- Result of the `logout` endpoint. -/
inductive LogoutResult where
  | noContent
  | err (status : Nat)
deriving DecidableEq

/-- `RefreshToken.findOneAndDelete (with token v)`: deletes the first stored
record carrying that value and resolves to it, or resolves to `null` when no
record matches — it never rejects on absence. -/
def findOneAndDelete (store : List String) (v : String) :
    List String × Option String :=
  if v ∈ store then (store.erase v, some v) else (store, none)

/-- `AccountController.logout`: a falsy `req.body.refreshToken` (absent or
empty) is answered with 400; otherwise the record is deleted — present or
not — and the response is 204. -/
def logout (store : List String) (refreshToken : Option String) :
    List String × LogoutResult :=
  match refreshToken with
  | none => (store, LogoutResult.err 400)
  | some v =>
    if v = "" then (store, LogoutResult.err 400)
    else ((findOneAndDelete store v).1, LogoutResult.noContent)

/-- Modelled from the spec: the repository persists refresh tokens
(`RefreshToken.findOneAndDelete` in `logout`) but contains no refresh-token
verification code under `src/`; per the spec a refresh token is valid
exactly while its record exists — absence of the record makes the value
invalid. -/
def verifyRefreshToken (store : List String) (v : String) : Bool :=
  decide (v ∈ store)

/-- The request body of `updatePassword` (first controller variant, keyed by
email). -/
structure UpdatePasswordBody where
  email : Option String
  password : Option String
  newPassword : Option String
  newPasswordConfirm : Option String

/-- JavaScript truthiness of an optional string field: `undefined` and the
empty string are falsy. -/
def present (o : Option String) : Bool := o.getD "" ≠ ""

/-- Everything one call of `updatePassword` does: the statuses passed to
`next(error)` in order, the plaintext written through `user.save`, and the
response status if one was sent. -/
structure UpdateOutcome where
  nextErrors : List Nat
  savedPassword : Option String
  resStatus : Option Nat
deriving DecidableEq

/-- `AccountController.updatePassword` (first variant): the two validation
branches call `next(createError(400))` but do NOT return, so execution falls
through to `User.authenticate`; on successful authentication the new
password is saved and 204 sent even when a validation error was already
signalled. A throw anywhere (missing email field, failed authentication)
lands in the catch, which signals one more 400. -/
def updatePassword (db : List StoredUser) (b : UpdatePasswordBody) :
    UpdateOutcome :=
  let validationErrors :=
    if !(present b.email) || !(present b.password) || !(present b.newPassword)
        || !(present b.newPasswordConfirm) then [400]
    else if b.newPassword ≠ b.newPasswordConfirm then [400]
    else []
  match b.email with
  | none =>
    { nextErrors := validationErrors ++ [400], savedPassword := none,
      resStatus := none }
  | some e =>
    match userAuthenticate db (toLowerCase e) b.password with
    | Except.error _ =>
      { nextErrors := validationErrors ++ [400], savedPassword := none,
        resStatus := none }
    | Except.ok _ =>
      { nextErrors := validationErrors, savedPassword := b.newPassword,
        resStatus := some 204 }

/-- `AccountController.resetPassword` (third controller variant): missing
`newPassword` signals 400 (and the fall-through save of an undefined
password then throws, caught as the same 400 status); otherwise the user
named by the `sub` of the verified token gets the new password (bcrypt pre-save
hook; the model fixes the salt). -/
def resetPassword (db : List StoredUser) (ident : Identity)
    (newPassword : Option String) : List StoredUser × RouteRes :=
  match newPassword with
  | none => (db, RouteRes.err 400)
  | some np =>
    match findById db ident.sub with
    | none => (db, RouteRes.err 400)
    | some u =>
      (db.map (fun v => if v.id == u.id then { v with password := bcryptHash 10 0 np } else v),
       RouteRes.noContent)

end AccountController

/-- The `PATCH /password/reset` route of `account-router.js`:
`authenticatePasswordResetJWT` gates `controller.resetPassword`. -/
def resetPasswordRoute (env : List (String × String))
    (hdr : Option (String × Option TokenStr)) (db : List StoredUser)
    (newPassword : Option String) : List StoredUser × RouteRes :=
  match AccountRouter.authenticatePasswordResetJWT env hdr with
  | MwStep.fail s => (db, RouteRes.err s)
  | MwStep.next ident => AccountController.resetPassword db ident newPassword

/-- The `GET /users/:id` route of `users-router.js`: the `router.param`
callback `loadUser` resolves `:id` first (404 when absent, attaching the
record to `req.user`), then `authenticateJWT`, then `find`, which answers
`res.json(req.user)` — the loaded record, with no ownership comparison. -/
def getUserByIdRoute (db : List StoredUser) (kid now : Nat)
    (hdr : Option (String × Option TokenStr)) (id : String) : RouteRes :=
  match findById db id with
  | none => RouteRes.err 404
  | some u =>
    match UsersRouter.authenticateJWT kid hdr now with
    | MwStep.fail s => RouteRes.err s
    | MwStep.next _ => RouteRes.json u

/-! ### UsersController.getAll (`users-controller.js`) -/

/-- A `(page, limit)` pagination cursor as emitted in `next`/`previous`. -/
structure PageRef where
  page : Int
  limit : Int
deriving DecidableEq

/-- The JSON body `getAll` sends. -/
structure GetAllResult where
  users : List StoredUser
  next : Option PageRef
  previous : Option PageRef
  pages : Int
deriving DecidableEq

/-- `Math.ceil(n / limit)` for a positive integer `limit`; the float results
of the JavaScript division for `limit <= 0` (infinities, NaN) fall outside
the integer model and the theorems assume `1 <= limit`. -/
def ceilDiv (n : Nat) (limit : Int) : Int :=
  if limit ≤ 0 then 0 else Int.ofNat ((n + limit.toNat - 1) / limit.toNat)

namespace UsersController

/-- `UsersController.getAll` with `page` and `limit` already parsed:

  * the filter `(admin = false)` names no schema path and Mongoose 6 strict
    querying strips it, so every stored user matches;
  * `sort (company ascending)` names no schema path either, so the stored
    order is kept;
  * `startIndex = (page-1)*limit` is the skip, `endIndex = page*limit`;
  * `next` is attached iff `endIndex < allUsers.length`;
  * `previous` is attached iff `startIndex < 0` — the source compares the
    skip against zero, not `page` against one;
  * `pages = ceil(allUsers.length / limit)`.

Negative skips/limits raise in MongoDB and are outside the model (`toNat`
clamps them; the theorems assume `1 <= page` and `1 <= limit`). -/
def getAll (users : List StoredUser) (page limit : Int) : GetAllResult :=
  let startIndex := (page - 1) * limit
  let endIndex := page * limit
  let allUsers := users
  { users := (allUsers.drop startIndex.toNat).take limit.toNat,
    next :=
      if endIndex < Int.ofNat allUsers.length then
        some { page := page + 1, limit := limit }
      else none,
    previous :=
      if startIndex < 0 then some { page := page - 1, limit := limit }
      else none,
    pages := ceilDiv allUsers.length limit }

end UsersController

/-- A store of `n` distinct accounts, used for the concrete pagination
scenario of the spec (25 accounts). -/
def mkUsers (n : Nat) : List StoredUser :=
  (List.range n).map (fun i =>
    { id := toString i, username := "u" ++ toString i,
      password := Digest.bc 10 i ("pw" ++ toString i) })

/-! ### Theorems -/

/-- The reset-key expression throws a TypeError on every environment: the
`process` entry is either unset — so `.env` is read off `undefined` — or a
string — so `.env` is `undefined` and `.PASSWORD_RESET_PUBLIC` is read off
`undefined`; either way `Buffer.from`/`jwt.verify` are never reached. -/
lemma passwordResetKeyExpr_throws (env : List (String × String)) :
    (passwordResetKeyExpr env).bind bufferFromBase64 = Except.error JsErr.typeError := by
  unfold passwordResetKeyExpr envGet
  rcases h : env.lookup "process" with _ | s <;> simp only [h] <;> rfl

/-- C1 (counterexample): authenticating against a store that has no such
account fails with the bcrypt argument rejection — raised by `bcrypt.compare`
before any hashing work — not with the `Invalid credentials.` error, so the
two failure cases are not the single `InvalidCredentials` kind. -/
theorem claim1_counterexample :
    userAuthenticate [] "ghost" (some "anyPassword")
      = Except.error AuthError.bcryptArgs
    ∧ AuthError.bcryptArgs ≠ AuthError.invalidCredentials := by
  exact ⟨rfl, by decide⟩

/-- C1 (amended): both failure cases make `User.authenticate` throw and the
`login` boundary maps either throw to the same 401; but the absent-account
case throws the bcrypt argument error (no password-verification work), while
only the wrong-password case throws `Invalid credentials.`. -/
theorem claim1_failure_kinds (db : List StoredUser) (uname p : String)
    (kid life now : Nat) :
    (findOne db (toLowerCase uname) = none →
      userAuthenticate db (toLowerCase uname) (some p) = Except.error AuthError.bcryptArgs
      ∧ AccountController.login db kid life now (some uname) (some p)
          = LoginResult.err 401)
    ∧ (∀ u : StoredUser, findOne db (toLowerCase uname) = some u →
      bcryptCompare (some p) (some u.password) = Except.ok false →
      userAuthenticate db (toLowerCase uname) (some p)
          = Except.error AuthError.invalidCredentials
      ∧ AccountController.login db kid life now (some uname) (some p)
          = LoginResult.err 401) := by
  constructor
  · intro h
    have h1 : userAuthenticate db (toLowerCase uname) (some p)
        = Except.error AuthError.bcryptArgs := by
      simp [userAuthenticate, h, bcryptCompare]
    exact ⟨h1, by simp [AccountController.login, h1]⟩
  · intro u hu hcmp
    have h1 : userAuthenticate db (toLowerCase uname) (some p)
        = Except.error AuthError.invalidCredentials := by
      simp [userAuthenticate, hu, hcmp]
    exact ⟨h1, by simp [AccountController.login, h1]⟩

/-- C1 witness: a concrete absent account and a concrete wrong password both
produce a 401 from `login`, with the two distinct underlying errors. -/
theorem claim1_witness :
    userAuthenticate [] (toLowerCase "Ghost") (some "pw")
      = Except.error AuthError.bcryptArgs
    ∧ AccountController.login [] 0 100 0 (some "Ghost") (some "pw")
      = LoginResult.err 401
    ∧ userAuthenticate [⟨"A", "alice", Digest.bc 10 0 "correcthorse"⟩]
        (toLowerCase "Alice") (some "wrongpw")
      = Except.error AuthError.invalidCredentials
    ∧ AccountController.login [⟨"A", "alice", Digest.bc 10 0 "correcthorse"⟩]
        0 100 0 (some "Alice") (some "wrongpw")
      = LoginResult.err 401 := by
  have h1 := (claim1_failure_kinds [] "Ghost" "pw" 0 100 0).1 (by decide)
  have h2 := (claim1_failure_kinds
      [⟨"A", "alice", Digest.bc 10 0 "correcthorse"⟩] "Alice" "wrongpw"
      0 100 0).2
    ⟨"A", "alice", Digest.bc 10 0 "correcthorse"⟩ (by decide) (by decide)
  exact ⟨h1.1, h1.2, h2.1, h2.2⟩

/-- C2: `authorizeUser` lets the request continue exactly when the verified
`sub` of the verified token equals the `:id` path parameter, and fails with 403
(Forbidden) otherwise. -/
theorem claim2_authorize_owner (u : Identity) (rid : String) :
    (AccountRouter.authorizeUser (some u) rid = MwStep.next u ↔ u.sub = rid)
    ∧ (u.sub ≠ rid →
        AccountRouter.authorizeUser (some u) rid = MwStep.fail 403) := by
  by_cases hc : u.sub = rid
  · refine ⟨⟨fun _ => hc, fun _ => ?_⟩, fun hne => absurd hc hne⟩
    simp [AccountRouter.authorizeUser, hc]
  · refine ⟨⟨fun h => ?_, fun h => absurd h hc⟩, fun _ => ?_⟩
    · simp [AccountRouter.authorizeUser, hc] at h
    · simp [AccountRouter.authorizeUser, hc]

/-- C2 witness: the identity with `sub = A` passes for resource `A` and is
denied with 403 for resource `B`. -/
theorem claim2_witness :
    AccountRouter.authorizeUser (some { sub := "A" }) "A"
      = MwStep.next { sub := "A" }
    ∧ AccountRouter.authorizeUser (some { sub := "A" }) "B"
      = MwStep.fail 403 := by
  exact ⟨(claim2_authorize_owner { sub := "A" } "A").1.mpr rfl,
    (claim2_authorize_owner { sub := "A" } "B").2 (by decide)⟩

/-- Verifying a freshly minted access token reduces to the expiry check: the
RS256 header is in the allow-list the public key defaults to, and the RSASSA
signature matches its own key pair. -/
lemma verify_issue_eq (a : StoredUser) (kid life now s : Nat) :
    AccountController.verifyAccessToken
        (AccountController.issueAccessToken a kid life now) kid s
      = if now + life ≤ s then Except.error JwtError.tokenExpired
        else Except.ok { sub := a.id, iat := now, exp := now + life } := by
  simp [AccountController.verifyAccessToken, AccountController.issueAccessToken,
    jwtVerify8, jwtSignRS256, allowedAlgs, sigOk, List.contains]

/-- C3: a token issued by `login` for account `a` verifies to claims with
`sub = a.id` at any clock before the configured lifetime has elapsed (and
`authenticateJWT` then passes the request on with that subject); from the
moment the lifetime has elapsed, verification fails as expired and
`authenticateJWT` answers 401. -/
theorem claim3_access_token_roundtrip (a : StoredUser) (kid life now t : Nat) :
    (t < now + life →
      AccountController.verifyAccessToken
          (AccountController.issueAccessToken a kid life now) kid t
        = Except.ok { sub := a.id, iat := now, exp := now + life }
      ∧ AccountRouter.authenticateJWT kid
          (some ("Bearer",
            some (TokenStr.tok (AccountController.issueAccessToken a kid life now)))) t
        = MwStep.next { sub := a.id })
    ∧ (now + life ≤ t →
      AccountController.verifyAccessToken
          (AccountController.issueAccessToken a kid life now) kid t
        = Except.error JwtError.tokenExpired
      ∧ AccountRouter.authenticateJWT kid
          (some ("Bearer",
            some (TokenStr.tok (AccountController.issueAccessToken a kid life now)))) t
        = MwStep.fail 401) := by
  constructor
  · intro h
    have hv := verify_issue_eq a kid life now t
    rw [if_neg (by omega)] at hv
    refine ⟨hv, ?_⟩
    simp only [AccountController.verifyAccessToken] at hv
    simp [AccountRouter.authenticateJWT, jwtVerifyStr, hv]
  · intro h
    have hv := verify_issue_eq a kid life now t
    rw [if_pos h] at hv
    refine ⟨hv, ?_⟩
    simp only [AccountController.verifyAccessToken] at hv
    simp [AccountRouter.authenticateJWT, jwtVerifyStr, hv]

/-- C3 witness: a concrete account and key pair; the token minted at time 0
with lifetime 100 verifies at time 5 with the account id as subject, and is
rejected as expired at time 150. -/
theorem claim3_witness :
    (5 < 0 + 100
    ∧ AccountController.verifyAccessToken
        (AccountController.issueAccessToken ⟨"A", "alice", Digest.bc 10 0 "pw"⟩ 0 100 0) 0 5
      = Except.ok { sub := "A", iat := 0, exp := 100 })
    ∧ (0 + 100 ≤ 150
    ∧ AccountRouter.authenticateJWT 0
        (some ("Bearer",
          some (TokenStr.tok
            (AccountController.issueAccessToken ⟨"A", "alice", Digest.bc 10 0 "pw"⟩ 0 100 0)))) 150
      = MwStep.fail 401) := by
  refine ⟨⟨by omega, ?_⟩, ⟨by omega, ?_⟩⟩
  · exact ((claim3_access_token_roundtrip ⟨"A", "alice", Digest.bc 10 0 "pw"⟩
      0 100 0 5).1 (by omega)).1
  · exact ((claim3_access_token_roundtrip ⟨"A", "alice", Digest.bc 10 0 "pw"⟩
      0 100 0 150).2 (by omega)).2

/-- C4: the failing input evaluated on the code. The part_001 middleware
hands `jwt.verify` the raw base64 `ACCESS_TOKEN_PUBLIC_KEY` text, for which
jsonwebtoken 8.5.1 defaults the allow-list to the HMAC family, so a token
whose header says HS256 and whose MAC uses that public text as secret is
accepted end to end; and even the PEM-keyed verification path accepts an
RS384-headed token, not only the configured RS256. The claim that every
token not declaring the configured algorithm fails with `InvalidToken` is
violated on both counts. -/
theorem claim4_algorithm_confusion :
    Part001.authenticateJWT 0
      (some ("Bearer", some (TokenStr.tok
        { alg := Alg.HS256, claims := { sub := "mallory", iat := 0, exp := 1000 },
          sig := Sig.hmac (KeyStr.b64 0) Alg.HS256 { sub := "mallory", iat := 0, exp := 1000 } }))) 5
      = MwStep.next { sub := "mallory" }
    ∧ jwtVerify8
        { alg := Alg.RS384, claims := { sub := "A", iat := 0, exp := 1000 },
          sig := Sig.rsa 0 Alg.RS384 { sub := "A", iat := 0, exp := 1000 } }
        (KeyStr.pemPub 0) 5
      = Except.ok { sub := "A", iat := 0, exp := 1000 } := by
  exact ⟨rfl, rfl⟩

/-- C5 (counterexample): a request with no authorization header to a route
guarded by the part_000 `authorizeJWT` middleware fails with 403, not with
the 401 the Unauthorized kind maps to. -/
theorem claim5_counterexample :
    Part000.authorizeJWT 0 none 5 = MwStep.fail 403
    ∧ Part000.authorizeJWT 0 none 5 ≠ MwStep.fail 401 := by
  exact ⟨rfl, by decide⟩

/-- C5 (amended): on every request, the bearer middlewares of
`account-router.js`, `users-router.js` and part_001 either pass the request
on or fail with exactly 401 — every authentication failure (missing header,
wrong scheme, invalid or expired token) is a 401; but the part_000 variant
maps every such failure to 403. -/
theorem claim5_failure_statuses (kid now : Nat)
    (hdr : Option (String × Option TokenStr)) :
    ((∃ i, AccountRouter.authenticateJWT kid hdr now = MwStep.next i)
      ∨ AccountRouter.authenticateJWT kid hdr now = MwStep.fail 401)
    ∧ ((∃ i, UsersRouter.authenticateJWT kid hdr now = MwStep.next i)
      ∨ UsersRouter.authenticateJWT kid hdr now = MwStep.fail 401)
    ∧ ((∃ i, Part001.authenticateJWT kid hdr now = MwStep.next i)
      ∨ Part001.authenticateJWT kid hdr now = MwStep.fail 401)
    ∧ ((∃ i, Part000.authorizeJWT kid hdr now = MwStep.next i)
      ∨ Part000.authorizeJWT kid hdr now = MwStep.fail 403) := by
  rcases hdr with _ | ⟨scheme, tk⟩
  · exact ⟨Or.inr rfl, Or.inr rfl, Or.inr rfl, Or.inr rfl⟩
  · by_cases hs : scheme = "Bearer"
    · subst hs
      refine ⟨?_, ?_, ?_, ?_⟩
      · rcases hv : jwtVerifyStr tk (KeyStr.pemPub kid) now with e | c
        · exact Or.inr (by simp [AccountRouter.authenticateJWT, hv])
        · exact Or.inl ⟨⟨c.sub⟩, by simp [AccountRouter.authenticateJWT, hv]⟩
      · rcases hv : jwtVerifyStr tk (KeyStr.pemPub kid) now with e | c
        · exact Or.inr (by simp [UsersRouter.authenticateJWT, hv])
        · exact Or.inl ⟨⟨c.sub⟩, by simp [UsersRouter.authenticateJWT, hv]⟩
      · rcases hv : jwtVerifyStr tk (KeyStr.b64 kid) now with e | c
        · exact Or.inr (by simp [Part001.authenticateJWT, hv])
        · exact Or.inl ⟨⟨c.sub⟩, by simp [Part001.authenticateJWT, hv]⟩
      · rcases hv : jwtVerifyStr tk (KeyStr.pemPub kid) now with e | c
        · exact Or.inr (by simp [Part000.authorizeJWT, hv])
        · exact Or.inl ⟨⟨c.sub⟩, by simp [Part000.authorizeJWT, hv]⟩
    · exact ⟨Or.inr (by simp [AccountRouter.authenticateJWT, hs]),
        Or.inr (by simp [UsersRouter.authenticateJWT, hs]),
        Or.inr (by simp [Part001.authenticateJWT, hs]),
        Or.inr (by simp [Part000.authorizeJWT, hs])⟩

/-- C6 (counterexample): revoking the same refresh-token value twice does
not crash, but the second call answers 204 like the first —
`findOneAndDelete` resolves to `null` on absence and `logout` never inspects
the result — not the `NotFound` (404) the claim states. -/
theorem claim6_counterexample :
    (AccountController.logout
        (AccountController.logout ["tok1"] (some "tok1")).1 (some "tok1")).2
      = AccountController.LogoutResult.noContent
    ∧ (AccountController.logout
        (AccountController.logout ["tok1"] (some "tok1")).1 (some "tok1")).2
      ≠ AccountController.LogoutResult.err 404 := by
  exact ⟨rfl, by decide⟩

/-- C6 (amended): for any store of distinct token values, revoking a
(non-empty) value answers 204 and removes its record; the second revocation
is a harmless no-op answering 204 again (not `NotFound` and not a crash);
and once revoked, the value never verifies again — neither immediately nor
after any further logout, since logouts only delete records (verification is
modelled from the spec: valid iff the record exists). -/
theorem claim6_revocation (store : List String) (v : String) (hv : v ≠ "")
    (hnd : store.Nodup) :
    (AccountController.logout store (some v)).2
        = AccountController.LogoutResult.noContent
    ∧ AccountController.verifyRefreshToken
        (AccountController.logout store (some v)).1 v = false
    ∧ (AccountController.logout
        (AccountController.logout store (some v)).1 (some v)).2
        = AccountController.LogoutResult.noContent
    ∧ (AccountController.logout
        (AccountController.logout store (some v)).1 (some v)).1
        = (AccountController.logout store (some v)).1
    ∧ ∀ w : Option String,
        AccountController.verifyRefreshToken
          (AccountController.logout
            (AccountController.logout store (some v)).1 w).1 v = false := by
  have hs1 : (AccountController.logout store (some v)).1
      = (AccountController.findOneAndDelete store v).1 := by
    simp [AccountController.logout, hv]
  have hnotmem : v ∉ (AccountController.logout store (some v)).1 := by
    rw [hs1]
    unfold AccountController.findOneAndDelete
    by_cases hm : v ∈ store
    · rw [if_pos hm]
      exact hnd.not_mem_erase
    · rw [if_neg hm]
      exact hm
  have hver : AccountController.verifyRefreshToken
      (AccountController.logout store (some v)).1 v = false := by
    simp [AccountController.verifyRefreshToken, hnotmem]
  have key : ∀ s : List String, v ∉ s →
      AccountController.logout s (some v)
        = (s, AccountController.LogoutResult.noContent) := by
    intro s hns
    have hfd : (AccountController.findOneAndDelete s v).1 = s := by
      unfold AccountController.findOneAndDelete
      rw [if_neg hns]
    show (if v = "" then (s, AccountController.LogoutResult.err 400)
      else ((AccountController.findOneAndDelete s v).1,
        AccountController.LogoutResult.noContent)) = _
    rw [if_neg hv, hfd]
  have preserve : ∀ (s : List String) (w : Option String), v ∉ s →
      v ∉ (AccountController.logout s w).1 := by
    intro s w hns
    rcases w with _ | w
    · exact hns
    · by_cases hw : w = ""
      · subst hw
        simpa [AccountController.logout] using hns
      · show v ∉ (if w = "" then (s, AccountController.LogoutResult.err 400)
          else ((AccountController.findOneAndDelete s w).1,
            AccountController.LogoutResult.noContent)).1
        rw [if_neg hw]
        unfold AccountController.findOneAndDelete
        by_cases hm : w ∈ s
        · rw [if_pos hm]
          exact fun hc => hns (List.mem_of_mem_erase hc)
        · rw [if_neg hm]
          exact hns
  refine ⟨by simp [AccountController.logout, hv], hver, ?_, ?_, ?_⟩
  · rw [key _ hnotmem]
  · rw [key _ hnotmem]
  · intro w
    have hp := preserve (AccountController.logout store (some v)).1 w hnotmem
    simp [AccountController.verifyRefreshToken, hp]

/-- C6 witness: the concrete two-record store; revoking `tok1` removes it,
the second revocation is a 204 no-op, and `tok1` never verifies again. -/
theorem claim6_witness :
    (AccountController.logout ["tok1", "other"] (some "tok1")).2
        = AccountController.LogoutResult.noContent
    ∧ AccountController.verifyRefreshToken
        (AccountController.logout ["tok1", "other"] (some "tok1")).1 "tok1" = false
    ∧ (AccountController.logout
        (AccountController.logout ["tok1", "other"] (some "tok1")).1 (some "tok1")).2
        = AccountController.LogoutResult.noContent
    ∧ AccountController.verifyRefreshToken
        (AccountController.logout
          (AccountController.logout ["tok1", "other"] (some "tok1")).1
          (some "other")).1 "tok1" = false := by
  have h := claim6_revocation ["tok1", "other"] "tok1" (by decide) (by decide)
  exact ⟨h.1, h.2.1, h.2.2.1, h.2.2.2.2 (some "other")⟩

/-- C7 (counterexample): with 25 stored accounts, `page=2, limit=10` does
not return `previous = (page 1, limit 10)` — the response carries no
`previous` at all, because the source attaches it only when
`startIndex = (page-1)*limit` is negative. -/
theorem claim7_counterexample :
    (UsersController.getAll (mkUsers 25) 2 10).previous
      ≠ some { page := 1, limit := 10 } := by
  decide

/-- C7 (amended): for any store and any `page >= 1, limit >= 1`: the items
are the `limit` stored accounts from offset `(page-1)*limit` (filter and
sort of the query name no schema paths, so all accounts match in stored
order), `pages = ceil(total/limit)`, `next = (page+1, limit)` is present iff
`page*limit < total` (equivalently `offset + limit < total`), and `previous`
is never present — the source tests `startIndex < 0`, not `page > 1`. -/
theorem claim7_pagination (users : List StoredUser) (page limit : Int)
    (hp : 1 ≤ page) (hl : 1 ≤ limit) :
    (UsersController.getAll users page limit).previous = none
    ∧ ((UsersController.getAll users page limit).next
        = some { page := page + 1, limit := limit }
        ↔ page * limit < Int.ofNat users.length)
    ∧ (UsersController.getAll users page limit).users
        = (users.drop ((page - 1) * limit).toNat).take limit.toNat
    ∧ (UsersController.getAll users page limit).pages
        = ceilDiv users.length limit := by
  have hstart : ¬((page - 1) * limit < 0) := by
    have : 0 ≤ (page - 1) * limit := mul_nonneg (by omega) (by omega)
    omega
  refine ⟨by simp [UsersController.getAll, hstart], ?_, rfl, rfl⟩
  by_cases hc : page * limit < Int.ofNat users.length
  · simp [UsersController.getAll, hc]
  · simp [UsersController.getAll, hc]

/-- C7 witness: the concrete scenario of the spec — 25 accounts, page 2, limit
10 — returns the stored accounts 11 to 20, `pages = 3`,
`next = (3, 10)`, and no `previous`. -/
theorem claim7_witness :
    (UsersController.getAll (mkUsers 25) 2 10).previous = none
    ∧ (UsersController.getAll (mkUsers 25) 2 10).next
        = some { page := 3, limit := 10 }
    ∧ (UsersController.getAll (mkUsers 25) 2 10).users
        = ((mkUsers 25).drop 10).take 10
    ∧ (UsersController.getAll (mkUsers 25) 2 10).pages = 3 := by
  have h := claim7_pagination (mkUsers 25) 2 10 (by decide) (by decide)
  refine ⟨h.1, ?_, ?_, ?_⟩
  · exact h.2.1.mpr (by decide)
  · have hu := h.2.2.1
    norm_num at hu
    exact hu
  · have hp := h.2.2.2
    rw [hp]
    decide

/-- C8: `authenticatePasswordResetJWT` fails with 401 on every request and
every environment — the key lookup `process.env.process.env.PASSWORD_RESET_PUBLIC`
always throws a TypeError inside the try block before `jwt.verify` can run —
so the `PATCH /password/reset` route always answers 401 with the store
untouched and `resetPassword` is unreachable, even for a correctly signed,
unexpired reset token. -/
theorem claim8_reset_route_unreachable (env : List (String × String))
    (hdr : Option (String × Option TokenStr)) (db : List StoredUser)
    (newPassword : Option String) :
    AccountRouter.authenticatePasswordResetJWT env hdr = MwStep.fail 401
    ∧ resetPasswordRoute env hdr db newPassword = (db, RouteRes.err 401) := by
  have hk := passwordResetKeyExpr_throws env
  have h1 : AccountRouter.authenticatePasswordResetJWT env hdr
      = MwStep.fail 401 := by
    rcases hdr with _ | ⟨scheme, t⟩
    · rfl
    · by_cases hs : scheme = "Bearer" <;>
        simp [AccountRouter.authenticatePasswordResetJWT, hs, hk]
  exact ⟨h1, by simp [resetPasswordRoute, h1]⟩

/-- C9: when all four body fields are present, the new password and its
confirmation disagree, and the supplied credentials authenticate,
`updatePassword` signals the 400 validation error to `next` AND still saves
the new password and sends 204 — the mismatch branch does not stop
execution, so the operation is not atomic on this validation error. -/
theorem claim9_update_password_not_atomic (db : List StoredUser)
    (b : AccountController.UpdatePasswordBody) (e : String) (u : StoredUser)
    (he : b.email = some e)
    (_hpe : AccountController.present b.email = true)
    (hpp : AccountController.present b.password = true)
    (hpn : AccountController.present b.newPassword = true)
    (hpc : AccountController.present b.newPasswordConfirm = true)
    (hne : b.newPassword ≠ b.newPasswordConfirm)
    (hauth : userAuthenticate db (toLowerCase e) b.password = Except.ok u) :
    AccountController.updatePassword db b
      = { nextErrors := [400], savedPassword := b.newPassword,
          resStatus := some 204 } := by
  simp [AccountController.updatePassword, he, hpp, hpn, hpc, hne, hauth]

/-- C9 witness: a concrete request with valid credentials and
`newPassword` different from `newPasswordConfirm` gets the 400 signalled and
the password saved with a 204. -/
theorem claim9_witness :
    AccountController.updatePassword
        [⟨"A", "alice", Digest.bc 10 0 "correcthorse"⟩]
        ⟨some "Alice", some "correcthorse", some "newpassword1",
          some "newpassword2"⟩
      = { nextErrors := [400], savedPassword := some "newpassword1",
          resStatus := some 204 } := by
  exact claim9_update_password_not_atomic
    [⟨"A", "alice", Digest.bc 10 0 "correcthorse"⟩]
    ⟨some "Alice", some "correcthorse", some "newpassword1", some "newpassword2"⟩
    "Alice" ⟨"A", "alice", Digest.bc 10 0 "correcthorse"⟩
    rfl (by decide) (by decide) (by decide) (by decide) (by decide) (by decide)

/-- C10: on `GET /users/:id`, once the path id resolves to a stored user and
the bearer token verifies, the route answers with the record of that user — there
is no ownership middleware on this route, so this holds in particular for an
authenticated identity whose `sub` differs from the requested id. -/
theorem claim10_no_ownership_check (db : List StoredUser) (kid now : Nat)
    (hdr : Option (String × Option TokenStr)) (id : String) (u : StoredUser)
    (ident : Identity)
    (hfind : findById db id = some u)
    (hauth : UsersRouter.authenticateJWT kid hdr now = MwStep.next ident)
    (_hdist : ident.sub ≠ id) :
    getUserByIdRoute db kid now hdr id = RouteRes.json u := by
  simp [getUserByIdRoute, hfind, hauth]

/-- C10 witness: a token for account B (subject `B`) reads the record of
account A through `GET /users/A`. -/
theorem claim10_witness :
    getUserByIdRoute [⟨"A", "alice", Digest.bc 10 0 "pw"⟩] 0 5
        (some ("Bearer", some (TokenStr.tok
          (AccountController.issueAccessToken ⟨"B", "bob", Digest.bc 10 1 "pw2"⟩ 0 100 0))))
        "A"
      = RouteRes.json ⟨"A", "alice", Digest.bc 10 0 "pw"⟩ := by
  exact claim10_no_ownership_check
    [⟨"A", "alice", Digest.bc 10 0 "pw"⟩] 0 5
    (some ("Bearer", some (TokenStr.tok
      (AccountController.issueAccessToken ⟨"B", "bob", Digest.bc 10 1 "pw2"⟩ 0 100 0))))
    "A" ⟨"A", "alice", Digest.bc 10 0 "pw"⟩ ⟨"B"⟩
    rfl rfl (by decide)

end LoginService
